import Mathlib

/-!
Shallow embedding of `bookkeeper/repository/sqlite_repository.py`
(`SqliteRepository`) and the record dataclasses it stores.

Modelling decisions, each traceable to the source:

* A `CategoryRow` / `ExpenseRow` is one row of the `categories` / `expenses`
  table exactly as created in `SqliteRepository.__init__`; a `DB` holds both
  tables in rowid order (the order an unordered `SELECT *` scans them in)
  together with the `AUTOINCREMENT` sequence counters.  The two repositories of
  `simple_client.py` share one database file, so one `DB` carries both tables.
* `sqlite3.connect` is issued without `PRAGMA foreign_keys = ON`, and sqlite3
  keeps foreign-key enforcement OFF by default, so the
  `ON DELETE CASCADE` clause declared on `expenses.category` is inert:
  `DELETE FROM categories` removes only category rows.  `categoryDelete`
  therefore does not touch the expense table; `categoryDeleteFkOn` models what
  the declared schema would do were enforcement enabled.
* `DATETIME DEFAULT CURRENT_TIMESTAMP` columns are modelled with an abstract
  clock value `now : Nat` passed to the inserting operation.
* Python mutates `obj.pk` in place; operations here return the updated record
  explicitly: `add`-style operations return `(returned pk, updated obj, new DB)`.
-/

namespace Bookkeeper

/-- The `Category` dataclass: `name`, optional `parent` pk, own `pk`
(0 before the record is persisted). -/
structure Category where
  name : String
  parent : Option Nat
  pk : Nat
deriving Repr, DecidableEq

/-- The `Expense` dataclass: `amount`, `category` pk, the two timestamp
fields, optional `comment`, own `pk` (0 before the record is persisted). -/
structure Expense where
  amount : Int
  category : Nat
  expense_date : Nat
  added_date : Nat
  comment : Option String
  pk : Nat
deriving Repr, DecidableEq

/-- One row of the `categories` table:
`pk INTEGER PRIMARY KEY AUTOINCREMENT, name TEXT NOT NULL,
parent INTEGER REFERENCES categories(pk)`. -/
structure CategoryRow where
  pk : Nat
  name : String
  parent : Option Nat
deriving Repr, DecidableEq

/-- One row of the `expenses` table:
`pk INTEGER PRIMARY KEY AUTOINCREMENT, amount INTEGER NOT NULL,
category INTEGER NOT NULL, expense_date DATETIME DEFAULT CURRENT_TIMESTAMP,
added_date DATETIME DEFAULT CURRENT_TIMESTAMP, comment TEXT,
FOREIGN KEY (category) REFERENCES categories (pk) ON DELETE CASCADE`. -/
structure ExpenseRow where
  pk : Nat
  amount : Int
  category : Nat
  expense_date : Nat
  added_date : Nat
  comment : Option String
deriving Repr, DecidableEq

/-- The database file: both tables (in rowid order) and the
`AUTOINCREMENT` sequence counter of each. -/
structure DB where
  categories : List CategoryRow
  expenses : List ExpenseRow
  catSeq : Nat
  expSeq : Nat
deriving Repr, DecidableEq

/-- A freshly created database file after `__init__` has run
`CREATE TABLE IF NOT EXISTS` for both tables. -/
def DB.empty : DB := ⟨[], [], 0, 0⟩

/-- Row-to-record conversion used by every category `SELECT`:
`Category(pk=row[0], name=row[1], parent=row[2])`. -/
def rowToCategory (r : CategoryRow) : Category :=
  ⟨r.name, r.parent, r.pk⟩

/-- Row-to-record conversion used by every expense `SELECT`:
`Expense(pk=row[0], amount=row[1], category=row[2], expense_date=row[3],
added_date=row[4], comment=row[5])`. -/
def rowToExpense (r : ExpenseRow) : Expense :=
  ⟨r.amount, r.category, r.expense_date, r.added_date, r.comment, r.pk⟩

/-- `get_category_by_name`: `SELECT * FROM categories WHERE name=?` followed by
`fetchone()` — the first row in table order whose `name` matches, converted to
a `Category`, else `None`. -/
def getCategoryByName (db : DB) (name : String) : Option Category :=
  (db.categories.find? (fun r => r.name == name)).map rowToCategory

/-- `SqliteRepository.add`, `isinstance(obj, Category)` branch: if
`get_category_by_name(obj.name)` finds a row, return its `pk` (no insert, no
mutation of `obj`); otherwise `INSERT INTO categories (name, parent)`, set
`obj.pk = cursor.lastrowid` and return it.  Result is
`(returned pk, obj after the call, database after the call)`. -/
def categoryAdd (db : DB) (obj : Category) : Nat × Category × DB :=
  match getCategoryByName db obj.name with
  | some existing => (existing.pk, obj, db)
  | none =>
      let pk := db.catSeq + 1
      (pk, { obj with pk := pk },
        { db with
            categories := db.categories ++ [⟨pk, obj.name, obj.parent⟩]
            catSeq := pk })

/-- `SqliteRepository.add`, `isinstance(obj, Expense)` branch:
`INSERT INTO expenses (amount, category, comment) VALUES (?, ?, ?)` — the two
date columns are NOT in the column list, so both take their
`DEFAULT CURRENT_TIMESTAMP` value `now`; then `obj.pk = cursor.lastrowid` is
returned.  Result is `(returned pk, obj after the call, database after)`. -/
def expenseAdd (db : DB) (obj : Expense) (now : Nat) : Nat × Expense × DB :=
  let pk := db.expSeq + 1
  (pk, { obj with pk := pk },
    { db with
        expenses := db.expenses ++ [⟨pk, obj.amount, obj.category, now, now, obj.comment⟩]
        expSeq := pk })

/-- `SqliteRepository.get` for a `Category`-bound repository:
`SELECT * FROM categories WHERE pk=?`, `fetchone()`, convert or `None`. -/
def categoryGet (db : DB) (pk : Nat) : Option Category :=
  (db.categories.find? (fun r => r.pk == pk)).map rowToCategory

/-- `SqliteRepository.get` for an `Expense`-bound repository:
`SELECT * FROM expenses WHERE pk=?`, `fetchone()`, convert or `None`. -/
def expenseGet (db : DB) (pk : Nat) : Option Expense :=
  (db.expenses.find? (fun r => r.pk == pk)).map rowToExpense

/-- `SqliteRepository.delete` for a `Category`-bound repository:
`DELETE FROM categories WHERE pk=?`.  Foreign-key enforcement is off (no
`PRAGMA foreign_keys = ON` anywhere in the source), so the declared
`ON DELETE CASCADE` does not fire and the expense table is untouched. -/
def categoryDelete (db : DB) (pk : Nat) : DB :=
  { db with categories := db.categories.filter (fun r => !(r.pk == pk)) }

/-- What `DELETE FROM categories WHERE pk=?` would do if foreign-key
enforcement were enabled: the declared `ON DELETE CASCADE` also removes every
expense row referencing the deleted category.  (The spec describes this
behaviour; the code never enables enforcement.) -/
def categoryDeleteFkOn (db : DB) (pk : Nat) : DB :=
  { db with
      categories := db.categories.filter (fun r => !(r.pk == pk))
      expenses := db.expenses.filter (fun r => !(r.category == pk)) }

/-- `SqliteRepository.delete` for an `Expense`-bound repository:
`DELETE FROM expenses WHERE pk=?`. -/
def expenseDelete (db : DB) (pk : Nat) : DB :=
  { db with expenses := db.expenses.filter (fun r => !(r.pk == pk)) }

/-- `SqliteRepository.update`, `isinstance(obj, Category)` branch:
`UPDATE categories SET name=?, parent=? WHERE pk=?`.  No validation of
`obj.pk`; a `WHERE` clause matching no row updates nothing and raises
nothing. -/
def categoryUpdate (db : DB) (obj : Category) : DB :=
  { db with
      categories := db.categories.map (fun r =>
        if r.pk == obj.pk then { r with name := obj.name, parent := obj.parent } else r) }

/-- `SqliteRepository.update`, `isinstance(obj, Expense)` branch:
`UPDATE expenses SET amount=?, category=?, comment=? WHERE pk=?` — the date
columns are never updated.  No validation of `obj.pk`. -/
def expenseUpdate (db : DB) (obj : Expense) : DB :=
  { db with
      expenses := db.expenses.map (fun r =>
        if r.pk == obj.pk then
          { r with amount := obj.amount, category := obj.category, comment := obj.comment }
        else r) }

/-- An SQLite value as bound into a parameterized query: an integer, a text
string, or `NULL` (Python `None`). -/
inductive Val where
  | int (i : Int)
  | text (s : String)
  | null
deriving Repr, DecidableEq

/-- SQLite `=` on bound values: `NULL` compares unequal to everything
(including `NULL`), and values of different storage classes are unequal. -/
def sqlEq : Val → Val → Bool
  | .int a, .int b => a == b
  | .text a, .text b => a == b
  | _, _ => false

/-- A column name of the `categories` table, as a `where` key of `get_all`. -/
inductive CatField where
  | pkF
  | nameF
  | parentF
deriving Repr, DecidableEq

/-- The value a category row holds in the given column. -/
def catFieldVal (r : CategoryRow) : CatField → Val
  | .pkF => .int r.pk
  | .nameF => .text r.name
  | .parentF =>
      match r.parent with
      | some p => .int p
      | none => .null

/-- A column name of the `expenses` table, as a `where` key of `get_all`. -/
inductive ExpField where
  | pkF
  | amountF
  | categoryF
  | expenseDateF
  | addedDateF
  | commentF
deriving Repr, DecidableEq

/-- The value an expense row holds in the given column. -/
def expFieldVal (r : ExpenseRow) : ExpField → Val
  | .pkF => .int r.pk
  | .amountF => .int r.amount
  | .categoryF => .int r.category
  | .expenseDateF => .int r.expense_date
  | .addedDateF => .int r.added_date
  | .commentF =>
      match r.comment with
      | some c => .text c
      | none => .null

/-- The `WHERE k1 = ? AND k2 = ? AND ...` clause `get_all` builds from the
`where` mapping: a row passes iff it satisfies every pair. -/
def catMatches (w : List (CatField × Val)) (r : CategoryRow) : Bool :=
  w.all (fun p => sqlEq (catFieldVal r p.1) p.2)

/-- Conjunctive `WHERE` clause over expense columns. -/
def expMatches (w : List (ExpField × Val)) (r : ExpenseRow) : Bool :=
  w.all (fun p => sqlEq (expFieldVal r p.1) p.2)

/-- The error the SQLite driver itself raises inside `get_all`:
`sqlite3.OperationalError` on malformed SQL. -/
inductive SqlError where
  | operationalError
deriving Repr, DecidableEq

/-- `SqliteRepository.get_all` for a `Category`-bound repository.  With
`where` equal to `None`, a plain `SELECT * FROM categories`.  With a `where`
mapping, `" AND ".join` builds the conjunctive clause; for an EMPTY mapping
the join is the empty string, the query ends in `WHERE `, and
`cursor.execute` raises `sqlite3.OperationalError` (incomplete input).
Otherwise the rows passing the clause are converted in scan (rowid)
order. -/
def categoryGetAll (db : DB) (w : Option (List (CatField × Val))) :
    Except SqlError (List Category) :=
  match w with
  | none => .ok (db.categories.map rowToCategory)
  | some [] => .error .operationalError
  | some conds => .ok ((db.categories.filter (catMatches conds)).map rowToCategory)

/-- `SqliteRepository.get_all` for an `Expense`-bound repository; same
shape, including the `sqlite3.OperationalError` on an empty `where`
mapping. -/
def expenseGetAll (db : DB) (w : Option (List (ExpField × Val))) :
    Except SqlError (List Expense) :=
  match w with
  | none => .ok (db.expenses.map rowToExpense)
  | some [] => .error .operationalError
  | some conds => .ok ((db.expenses.filter (expMatches conds)).map rowToExpense)

/-- Record-to-row conversion inverse to `rowToCategory`. -/
def categoryToRow (c : Category) : CategoryRow :=
  ⟨c.pk, c.name, c.parent⟩

/-- Record-to-row conversion inverse to `rowToExpense`. -/
def expenseToRow (e : Expense) : ExpenseRow :=
  ⟨e.pk, e.amount, e.category, e.expense_date, e.added_date, e.comment⟩

/-- The record type a repository is bound to: `__init__` accepts only
`Category` or `Expense` as `model_class` and raises `ValueError` otherwise,
so a constructed repository is bound to one of these two. -/
inductive Model where
  | category
  | expense
deriving Repr, DecidableEq

/-- A Python object passed to `add`/`update`: a `Category`, an `Expense`, or
any object of neither dataclass (e.g. a `Budget`), which is what the
`isinstance` chains fall through on. -/
inductive Record where
  | cat (c : Category)
  | exp (e : Expense)
  | other
deriving Repr, DecidableEq

/-- The one error the mutating operations themselves raise:
`TypeError("Unsupported object type")`. -/
inductive RepoError where
  | typeError
deriving Repr, DecidableEq

/-- A `SqliteRepository` instance: the bound `model_class` and the database
file behind its connection. -/
structure Repo where
  model : Model
  db : DB
deriving Repr, DecidableEq

/-- `SqliteRepository.add` as a whole: it branches on
`isinstance(obj, Category)` / `isinstance(obj, Expense)` — the argument's
runtime type — and never consults `self.model_class`; only an object of
neither type reaches `raise TypeError`. -/
def sqliteAdd (repo : Repo) (obj : Record) (now : Nat) :
    Except RepoError (Nat × Record × Repo) :=
  match obj with
  | .cat c =>
      let r := categoryAdd repo.db c
      .ok (r.1, .cat r.2.1, { repo with db := r.2.2 })
  | .exp e =>
      let r := expenseAdd repo.db e now
      .ok (r.1, .exp r.2.1, { repo with db := r.2.2 })
  | .other => .error .typeError

/-- `SqliteRepository.update` as a whole: same `isinstance` dispatch on the
argument, `self.model_class` never consulted. -/
def sqliteUpdate (repo : Repo) (obj : Record) : Except RepoError Repo :=
  match obj with
  | .cat c => .ok { repo with db := categoryUpdate repo.db c }
  | .exp e => .ok { repo with db := expenseUpdate repo.db e }
  | .other => .error .typeError

/-- No two rows of the `categories` table share a name. -/
def namesDistinct (db : DB) : Prop :=
  db.categories.Pairwise (fun a b => a.name ≠ b.name)

/-- Claim C1: adding a `Category` whose name already exists returns the
existing row's primary key, creates no new row and leaves the existing row's
`parent` (indeed the whole database) unchanged; and adding the same category
twice returns the same primary key both times. -/
theorem c1_category_add_idempotent_by_name :
    (∀ (db : DB) (c ex : Category),
        getCategoryByName db c.name = some ex → categoryAdd db c = (ex.pk, c, db)) ∧
    (∀ (db : DB) (c : Category),
        (categoryAdd (categoryAdd db c).2.2 c).1 = (categoryAdd db c).1) := by
  constructor
  · intro db c ex h
    simp [categoryAdd, h]
  · intro db c
    unfold categoryAdd
    cases hfind : getCategoryByName db c.name with
    | some ex => simp [hfind]
    | none =>
        simp only [hfind]
        have hnone : db.categories.find? (fun r => r.name == c.name) = none := by
          unfold getCategoryByName at hfind
          cases hf : db.categories.find? (fun r => r.name == c.name) with
          | none => rfl
          | some r => rw [hf] at hfind; simp at hfind
        have : getCategoryByName
            { db with
                categories := db.categories ++ [⟨db.catSeq + 1, c.name, c.parent⟩]
                catSeq := db.catSeq + 1 } c.name
            = some (rowToCategory ⟨db.catSeq + 1, c.name, c.parent⟩) := by
          unfold getCategoryByName
          rw [List.find?_append, hnone]
          simp [List.find?]
        simp [this, rowToCategory]

/-- Witness for C1 at a concrete state: the table already holds
`(1, "Food", NULL)`; re-adding `Category("Food", parent=None)` returns pk 1
and changes nothing. -/
theorem c1_witness :
    categoryAdd ⟨[⟨1, "Food", none⟩], [], 1, 0⟩ ⟨"Food", none, 0⟩
      = (1, ⟨"Food", none, 0⟩, ⟨[⟨1, "Food", none⟩], [], 1, 0⟩) :=
  c1_category_add_idempotent_by_name.1 _ _ ⟨"Food", none, 1⟩ (by decide)

/-- Claim C2: the claim says deleting a category cascades to its expenses,
so a subsequent `get` of the expense returns absent.  Evaluating the code at
the failing input: on a fresh file, add `Category("Food")` (pk 1), add an
expense of amount 50 under category 1 (pk 1, clock 10), delete category 1 on
the category repository — the expense row survives (foreign-key enforcement
is off, the declared cascade never fires) and `get(1)` on the expense
repository still returns the expense, not absent. -/
theorem c2_delete_does_not_cascade :
    expenseGet
        (categoryDelete
          (expenseAdd (categoryAdd DB.empty ⟨"Food", none, 0⟩).2.2
            ⟨50, 1, 0, 0, none, 0⟩ 10).2.2
          1)
        1
      = some ⟨50, 1, 10, 10, none, 1⟩ := by decide

/-- Supporting fact for C2: with foreign-key enforcement on, the declared
`ON DELETE CASCADE` would do what the claim says — at the same failing input
the expense would be gone. -/
theorem c2_cascade_would_fire_with_fk_on :
    expenseGet
        (categoryDeleteFkOn
          (expenseAdd (categoryAdd DB.empty ⟨"Food", none, 0⟩).2.2
            ⟨50, 1, 0, 0, none, 0⟩ 10).2.2
          1)
        1
      = none := by decide

/-- Counterexample to claim C3: an `Expense` already carrying primary key 7 is
passed to `add` on a fresh file — instead of failing with `InvalidArgument`,
`add` persists a new row, overwrites the record's pk with the newly assigned
key 1 and returns it. -/
theorem c3_counterexample :
    expenseAdd DB.empty ⟨50, 1, 0, 0, none, 7⟩ 10
      = (1, ⟨50, 1, 0, 0, none, 1⟩, ⟨[], [⟨1, 50, 1, 10, 10, none⟩], 0, 1⟩) := by
  decide

/-- Claim C3 as amended: the SQLite realization's `add` performs no
primary-key check — a record carrying a non-zero primary key is persisted as
a new row anyway, its pk is overwritten with the newly assigned key, and that
key is returned; no `InvalidArgument` error exists on this path. -/
theorem c3_amended (db : DB) (e : Expense) (now : Nat) (h : e.pk ≠ 0) :
    expenseAdd db e now
      = (db.expSeq + 1, { e with pk := db.expSeq + 1 },
          { db with
              expenses := db.expenses ++
                [⟨db.expSeq + 1, e.amount, e.category, now, now, e.comment⟩]
              expSeq := db.expSeq + 1 }) := rfl

/-- Witness for C3 as amended at a concrete input with preset pk 9. -/
theorem c3_witness :
    expenseAdd DB.empty ⟨7, 2, 0, 0, some "lunch", 9⟩ 3
      = (1, ⟨7, 2, 0, 0, some "lunch", 1⟩,
          ⟨[], [⟨1, 7, 2, 3, 3, some "lunch"⟩], 0, 1⟩) :=
  c3_amended DB.empty ⟨7, 2, 0, 0, some "lunch", 9⟩ 3 (by decide)

/-- Counterexample to claim C4: `update` on a `Category` record with primary
key 0 (never persisted) does not fail with `InvalidArgument` — it is a silent
no-op: the `UPDATE ... WHERE pk=0` matches no row and the state is returned
unchanged. -/
theorem c4_counterexample :
    categoryUpdate ⟨[⟨1, "Food", none⟩], [], 1, 0⟩ ⟨"X", none, 0⟩
      = ⟨[⟨1, "Food", none⟩], [], 1, 0⟩ := by decide

/-- Claim C4 as amended: the SQLite realization's `update` performs no
validation at all — updating a record whose primary key matches no stored row
(in particular a zero/absent primary key, which `AUTOINCREMENT` never
assigns) raises nothing and leaves the store unchanged, for both record
types. -/
theorem c4_amended :
    (∀ (db : DB) (obj : Category),
        (∀ r ∈ db.categories, r.pk ≠ obj.pk) → categoryUpdate db obj = db) ∧
    (∀ (db : DB) (obj : Expense),
        (∀ r ∈ db.expenses, r.pk ≠ obj.pk) → expenseUpdate db obj = db) := by
  constructor
  · intro db obj h
    obtain ⟨cats, exps, cs, es⟩ := db
    simp only [categoryUpdate, DB.mk.injEq]
    refine ⟨?_, trivial, trivial, trivial⟩
    exact ((List.map_congr_left (fun r hr => by simp [h r hr])).trans (List.map_id cats))
  · intro db obj h
    obtain ⟨cats, exps, cs, es⟩ := db
    simp only [expenseUpdate, DB.mk.injEq]
    refine ⟨trivial, ?_, trivial, trivial⟩
    exact ((List.map_congr_left (fun r hr => by simp [h r hr])).trans (List.map_id exps))

/-- Witness for C4 as amended: updating `Category("X", pk=0)` against a table
holding only pk 1 changes nothing. -/
theorem c4_witness :
    categoryUpdate ⟨[⟨1, "Food", none⟩], [], 1, 0⟩ ⟨"X", some 1, 0⟩
      = ⟨[⟨1, "Food", none⟩], [], 1, 0⟩ :=
  c4_amended.1 ⟨[⟨1, "Food", none⟩], [], 1, 0⟩ ⟨"X", some 1, 0⟩ (by decide)

/-- Counterexample to claim C5: a repository bound to `Category` is handed an
`Expense` record — `add` does not fail with `TypeMismatch`; it inserts the
record into the `expenses` table and returns the new key. -/
theorem c5_counterexample :
    sqliteAdd ⟨Model.category, DB.empty⟩ (.exp ⟨50, 1, 0, 0, none, 0⟩) 10
      = .ok (1, .exp ⟨50, 1, 0, 0, none, 1⟩,
          ⟨Model.category, ⟨[], [⟨1, 50, 1, 10, 10, none⟩], 0, 1⟩⟩) := rfl

/-- Claim C5 as amended: `add` and `update` dispatch on the argument's
runtime type and never consult the bound record type — a `Category` argument
always works the category table and an `Expense` argument always works the
expense table, whatever the repository is bound to (the outcome is invariant
under the bound model); only an object of neither supported type fails, with
`TypeError`, not a bound-type mismatch check. -/
theorem c5_amended :
    (∀ (repo : Repo) (c : Category) (now : Nat),
        sqliteAdd repo (.cat c) now
          = .ok ((categoryAdd repo.db c).1, .cat (categoryAdd repo.db c).2.1,
              ⟨repo.model, (categoryAdd repo.db c).2.2⟩)) ∧
    (∀ (repo : Repo) (e : Expense) (now : Nat),
        sqliteAdd repo (.exp e) now
          = .ok ((expenseAdd repo.db e now).1, .exp (expenseAdd repo.db e now).2.1,
              ⟨repo.model, (expenseAdd repo.db e now).2.2⟩)) ∧
    (∀ (repo : Repo) (now : Nat), sqliteAdd repo .other now = .error .typeError) ∧
    (∀ (m m' : Model) (db : DB) (obj : Record) (now : Nat),
        (sqliteAdd ⟨m, db⟩ obj now).map (fun r => (r.1, r.2.1, r.2.2.db))
          = (sqliteAdd ⟨m', db⟩ obj now).map (fun r => (r.1, r.2.1, r.2.2.db))) ∧
    (∀ (repo : Repo) (c : Category),
        sqliteUpdate repo (.cat c) = .ok ⟨repo.model, categoryUpdate repo.db c⟩) ∧
    (∀ (repo : Repo) (e : Expense),
        sqliteUpdate repo (.exp e) = .ok ⟨repo.model, expenseUpdate repo.db e⟩) ∧
    (∀ (repo : Repo), sqliteUpdate repo .other = .error .typeError) := by
  refine ⟨fun repo c now => rfl, fun repo e now => rfl, fun repo now => rfl, ?_,
    fun repo c => rfl, fun repo e => rfl, fun repo => rfl⟩
  intro m n db obj now
  cases obj <;> rfl

/-- Counterexample to claim C6: the round-trip is not exact for `Expense` —
`add` does not persist the caller-supplied `expense_date` (the `INSERT` lists
only `amount`, `category`, `comment`), so with caller dates 5 and clock 100,
`get(add(r))` returns dates 100, not a record equal to `r` up to pk. -/
theorem c6_counterexample :
    expenseGet (expenseAdd DB.empty ⟨50, 1, 5, 5, none, 0⟩ 100).2.2
        (expenseAdd DB.empty ⟨50, 1, 5, 5, none, 0⟩ 100).1
      ≠ some { (⟨50, 1, 5, 5, none, 0⟩ : Expense) with
                pk := (expenseAdd DB.empty ⟨50, 1, 5, 5, none, 0⟩ 100).1 } := by
  decide

/-- Claim C6 as amended: for a well-formed store (every stored pk is at most
the sequence counter), `get(add(r))` returns `r` with the assigned primary
key — exactly for `Category` records whose name is not yet present, and for
`Expense` records up to the two date fields, which the store sets to the
insertion timestamp regardless of the caller-supplied values (`comment` does
round-trip). -/
theorem c6_amended :
    (∀ (db : DB) (c : Category),
        (∀ r ∈ db.categories, r.pk ≤ db.catSeq) →
        getCategoryByName db c.name = none →
        categoryGet (categoryAdd db c).2.2 (categoryAdd db c).1
          = some { c with pk := (categoryAdd db c).1 }) ∧
    (∀ (db : DB) (e : Expense) (now : Nat),
        (∀ r ∈ db.expenses, r.pk ≤ db.expSeq) →
        expenseGet (expenseAdd db e now).2.2 (expenseAdd db e now).1
          = some { e with pk := (expenseAdd db e now).1,
                          expense_date := now, added_date := now }) := by
  constructor
  · intro db c hwf hname
    unfold categoryAdd
    simp only [hname]
    unfold categoryGet
    rw [List.find?_append]
    have h1 : db.categories.find? (fun r => r.pk == db.catSeq + 1) = none := by
      rw [List.find?_eq_none]
      intro r hr
      have := hwf r hr
      simp only [beq_iff_eq]
      omega
    rw [h1]
    simp [List.find?, rowToCategory]
  · intro db e now hwf
    unfold expenseAdd
    unfold expenseGet
    rw [List.find?_append]
    have h1 : db.expenses.find? (fun r => r.pk == db.expSeq + 1) = none := by
      rw [List.find?_eq_none]
      intro r hr
      have := hwf r hr
      simp only [beq_iff_eq]
      omega
    rw [h1]
    simp [List.find?, rowToExpense]

/-- Witness for C6 as amended: adding `Category("Food", parent=None)` to a
fresh file and reading it back through the assigned key returns the record
with pk 1. -/
theorem c6_witness :
    categoryGet (categoryAdd DB.empty ⟨"Food", none, 0⟩).2.2
        (categoryAdd DB.empty ⟨"Food", none, 0⟩).1
      = some { (⟨"Food", none, 0⟩ : Category) with
                pk := (categoryAdd DB.empty ⟨"Food", none, 0⟩).1 } :=
  c6_amended.1 DB.empty ⟨"Food", none, 0⟩ (by decide) (by decide)

/-- Counterexample to claim C7: the claim quantifies over every `where`
mapping, but for the EMPTY mapping `get_all` does not return the (vacuously)
all-matching records — `" AND ".join({})` is the empty string, the query ends
in `WHERE `, and the call raises `sqlite3.OperationalError`.  On a table
holding one row, `get_all({})` errors while the unfiltered query returns that
row. -/
theorem c7_counterexample :
    categoryGetAll ⟨[⟨1, "Food", none⟩], [], 1, 0⟩ (some [])
      = .error .operationalError ∧
    categoryGetAll ⟨[⟨1, "Food", none⟩], [], 1, 0⟩ none
      = .ok [⟨"Food", none, 1⟩] ∧
    categoryGetAll ⟨[⟨1, "Food", none⟩], [], 1, 0⟩ (some [])
      ≠ .ok [⟨"Food", none, 1⟩] :=
  ⟨rfl, rfl, fun h => Except.noConfusion h⟩

/-- Claim C7 as amended: `get_all` with no filter returns every stored record
in table (insertion) order; with a NON-EMPTY `where` mapping it returns
exactly the members of the unfiltered result that satisfy every key/value
pair of the mapping conjunctively, in the same order; the empty mapping
raises `sqlite3.OperationalError` from the malformed clause — for both
record types. -/
theorem c7_amended :
    (∀ (db : DB), categoryGetAll db none = .ok (db.categories.map rowToCategory)) ∧
    (∀ (db : DB) (w : List (CatField × Val)), w ≠ [] →
        categoryGetAll db (some w)
          = (categoryGetAll db none).map
              (fun l => l.filter (fun c => catMatches w (categoryToRow c)))) ∧
    (∀ (db : DB), categoryGetAll db (some []) = .error .operationalError) ∧
    (∀ (db : DB), expenseGetAll db none = .ok (db.expenses.map rowToExpense)) ∧
    (∀ (db : DB) (w : List (ExpField × Val)), w ≠ [] →
        expenseGetAll db (some w)
          = (expenseGetAll db none).map
              (fun l => l.filter (fun e => expMatches w (expenseToRow e)))) ∧
    (∀ (db : DB), expenseGetAll db (some []) = .error .operationalError) := by
  refine ⟨fun db => rfl, ?_, fun db => rfl, fun db => rfl, ?_, fun db => rfl⟩
  · intro db w hw
    match w with
    | [] => exact absurd rfl hw
    | p :: rest =>
        show Except.ok ((db.categories.filter (catMatches (p :: rest))).map rowToCategory)
            = Except.ok ((db.categories.map rowToCategory).filter
                (fun c => catMatches (p :: rest) (categoryToRow c)))
        rw [List.filter_map]
        rfl
  · intro db w hw
    match w with
    | [] => exact absurd rfl hw
    | p :: rest =>
        show Except.ok ((db.expenses.filter (expMatches (p :: rest))).map rowToExpense)
            = Except.ok ((db.expenses.map rowToExpense).filter
                (fun e => expMatches (p :: rest) (expenseToRow e)))
        rw [List.filter_map]
        rfl

/-- Witness for C7 as amended, at the spec's own example: three expenses with
category values 1, 1, 2; filtering on category = 1 returns exactly the
matching members of the unfiltered result, in order. -/
theorem c7_witness :
    expenseGetAll
        ⟨[], [⟨1, 100, 1, 0, 0, none⟩, ⟨2, 200, 1, 0, 0, none⟩,
              ⟨3, 300, 2, 0, 0, none⟩], 0, 3⟩
        (some [(ExpField.categoryF, Val.int 1)])
      = (expenseGetAll
            ⟨[], [⟨1, 100, 1, 0, 0, none⟩, ⟨2, 200, 1, 0, 0, none⟩,
                  ⟨3, 300, 2, 0, 0, none⟩], 0, 3⟩ none).map
          (fun l => l.filter
            (fun e => expMatches [(ExpField.categoryF, Val.int 1)] (expenseToRow e))) :=
  c7_amended.2.2.2.2.1 _ [(ExpField.categoryF, Val.int 1)] (by decide)

/-- Counterexample to claim C8: on the category de-duplication path the
caller's record is NOT mutated — re-adding `Category("Food", pk=0)` against a
table already holding `"Food"` at pk 1 returns 1, but the argument record's
pk field is still 0. -/
theorem c8_counterexample :
    (categoryAdd ⟨[⟨1, "Food", none⟩], [], 1, 0⟩ ⟨"Food", none, 0⟩).1 = 1 ∧
    (categoryAdd ⟨[⟨1, "Food", none⟩], [], 1, 0⟩ ⟨"Food", none, 0⟩).2.1.pk = 0 := by
  decide

/-- Claim C8 as amended: on the fresh-insert paths (a category whose name is
new, and every expense) the caller's record is mutated to carry the returned
primary key; on the category de-duplication path the existing key is returned
but the argument record is left entirely unchanged. -/
theorem c8_amended :
    (∀ (db : DB) (c : Category),
        getCategoryByName db c.name = none →
        (categoryAdd db c).2.1.pk = (categoryAdd db c).1) ∧
    (∀ (db : DB) (e : Expense) (now : Nat),
        (expenseAdd db e now).2.1.pk = (expenseAdd db e now).1) ∧
    (∀ (db : DB) (c ex : Category),
        getCategoryByName db c.name = some ex →
        (categoryAdd db c).2.1 = c) := by
  refine ⟨?_, fun db e now => rfl, ?_⟩
  · intro db c h
    simp [categoryAdd, h]
  · intro db c ex h
    simp [categoryAdd, h]

/-- Witness for C8 as amended: a fresh insert on an empty file sets the
record's pk to the returned key. -/
theorem c8_witness :
    (categoryAdd DB.empty ⟨"Food", none, 0⟩).2.1.pk
      = (categoryAdd DB.empty ⟨"Food", none, 0⟩).1 :=
  c8_amended.1 DB.empty ⟨"Food", none, 0⟩ (by decide)

/-- Claim C9: deleting a primary key that matches no stored row raises
nothing (both operations are total functions of the state) and leaves the
store unchanged, for both record types. -/
theorem c9_delete_nonexistent_noop :
    (∀ (db : DB) (pk : Nat),
        (∀ r ∈ db.categories, r.pk ≠ pk) → categoryDelete db pk = db) ∧
    (∀ (db : DB) (pk : Nat),
        (∀ r ∈ db.expenses, r.pk ≠ pk) → expenseDelete db pk = db) := by
  constructor
  · intro db pk h
    obtain ⟨cats, exps, cs, es⟩ := db
    simp only [categoryDelete, DB.mk.injEq]
    refine ⟨?_, trivial, trivial, trivial⟩
    rw [List.filter_eq_self]
    intro r hr
    simp [h r hr]
  · intro db pk h
    obtain ⟨cats, exps, cs, es⟩ := db
    simp only [expenseDelete, DB.mk.injEq]
    refine ⟨trivial, ?_, trivial, trivial⟩
    rw [List.filter_eq_self]
    intro r hr
    simp [h r hr]

/-- Witness for C9: `delete(999999)` on an empty table returns the state
unchanged. -/
theorem c9_witness :
    categoryDelete DB.empty 999999 = DB.empty :=
  c9_delete_nonexistent_noop.1 DB.empty 999999 (by decide)

/-- Claim C10: `add` preserves the invariant that no two category rows share
a name (the de-duplication check makes a duplicate-name row unreachable via
`add`), and on such states `get_category_by_name`'s first-match answer is
deterministic: it returns exactly the one row bearing the name. -/
theorem c10_add_preserves_distinct_names :
    (∀ (db : DB) (c : Category),
        namesDistinct db → namesDistinct (categoryAdd db c).2.2) ∧
    (∀ (db : DB) (r : CategoryRow),
        namesDistinct db → r ∈ db.categories →
        getCategoryByName db r.name = some (rowToCategory r)) := by
  constructor
  · intro db c h
    unfold categoryAdd
    cases hname : getCategoryByName db c.name with
    | some ex => simpa [namesDistinct] using h
    | none =>
        have hnone : ∀ r ∈ db.categories, r.name ≠ c.name := by
          intro r hr
          have hfind : db.categories.find? (fun x => x.name == c.name) = none := by
            unfold getCategoryByName at hname
            exact (Option.map_eq_none'.mp hname)
          have := List.find?_eq_none.mp hfind r hr
          simpa using this
        unfold namesDistinct
        simp only []
        rw [List.pairwise_append]
        refine ⟨h, List.pairwise_singleton _ _, ?_⟩
        intro a ha b hb
        have hb1 : b = ⟨db.catSeq + 1, c.name, c.parent⟩ := by simpa using hb
        subst hb1
        exact hnone a ha
  · intro db r h hr
    have key : ∀ (l : List CategoryRow),
        l.Pairwise (fun a b => a.name ≠ b.name) → r ∈ l →
        l.find? (fun x => x.name == r.name) = some r := by
      intro l
      induction l with
      | nil => intro _ hm; cases hm
      | cons a t ih =>
          intro hp hm
          have hpc := List.pairwise_cons.mp hp
          rcases List.mem_cons.mp hm with hra | hm2
          · subst hra
            simp [List.find?]
          · have hne : a.name ≠ r.name := hpc.1 r hm2
            have : (a.name == r.name) = false := by simpa using hne
            simp [List.find?, this]
            exact ih hpc.2 hm2
    unfold getCategoryByName
    rw [key db.categories h hr]
    rfl

/-- Witness for C10: adding `Category("Food")` to an empty table yields a
table with pairwise-distinct names. -/
theorem c10_witness :
    namesDistinct (categoryAdd DB.empty ⟨"Food", none, 0⟩).2.2 :=
  c10_add_preserves_distinct_names.1 DB.empty ⟨"Food", none, 0⟩ List.Pairwise.nil

end Bookkeeper
